import Mathlib

set_option maxHeartbeats 1000000

/- Verification of the InsightIQ summarization / quiz-generation core
   (summarizer.py, quizgenerator.py), embedded shallowly: text is a list of
   characters, offsets are integers with Python slice clamping, the network
   transport is an explicit function from attempt number to response. -/

/- Python string primitives (slice-notation clamping, rfind, strip). -/

def pyIsSpace (c : Char) : Bool :=
  c = ' ' || c = '\t' || c = '\n' || c = '\r' || c = '\x0b' || c = '\x0c'

def pyStrip (l : List Char) : List Char :=
  ((l.dropWhile pyIsSpace).reverse.dropWhile pyIsSpace).reverse

def pySliceIdx (n : Nat) (i : Int) : Nat :=
  if i < 0 then (i + n).toNat else min i.toNat n

def pySlice (l : List Char) (s e : Int) : List Char :=
  (l.drop (pySliceIdx l.length s)).take (pySliceIdx l.length e - pySliceIdx l.length s)

def lastIdxOf (c : Char) : List Char → Option Nat
  | [] => none
  | a :: as =>
    match lastIdxOf c as with
    | some j => some (j + 1)
    | none => if a = c then some 0 else none

def pyRfind (l : List Char) (c : Char) (s e : Int) : Int :=
  let s2 := pySliceIdx l.length s
  let e2 := pySliceIdx l.length e
  match lastIdxOf c ((l.drop s2).take (e2 - s2)) with
  | some j => (s2 : Int) + j
  | none => -1

/- Chunking (summarizer.py, chunk_text, lines 66-92). -/

def CHUNK_SIZE : Nat := 15000

def CHUNK_OVERLAP : Nat := 1000

def chunkEnd (text : List Char) (maxSize overlap : Nat) (start : Int) : Int :=
  let n : Int := text.length
  let e0 : Int := min (start + maxSize) n
  if e0 < n then
    let breakPoint := max (pyRfind text '.' start e0) (pyRfind text '\n' start e0)
    if breakPoint > start + (maxSize : Int) - (overlap : Int) then breakPoint + 1 else e0
  else e0

def nextStart (text : List Char) (maxSize overlap : Nat) (start : Int) : Int :=
  let e := chunkEnd text maxSize overlap start
  if e < (text.length : Int) then e - overlap else (text.length : Int)

def chunkTextFuel (text : List Char) (maxSize overlap : Nat) : Nat → Int → List (List Char)
  | 0, _ => []
  | fuel + 1, start =>
    if start < (text.length : Int) then
      if (pyStrip (pySlice text start (chunkEnd text maxSize overlap start))).isEmpty then
        chunkTextFuel text maxSize overlap fuel (nextStart text maxSize overlap start)
      else
        pyStrip (pySlice text start (chunkEnd text maxSize overlap start)) ::
          chunkTextFuel text maxSize overlap fuel (nextStart text maxSize overlap start)
    else []

def chunk_text (text : List Char) (maxSize overlap : Nat) : List (List Char) :=
  chunkTextFuel text maxSize overlap (text.length + 1) 0

def chunkSpansFuel (text : List Char) (maxSize overlap : Nat) : Nat → Int → List (Int × Int)
  | 0, _ => []
  | fuel + 1, start =>
    if start < (text.length : Int) then
      (start, chunkEnd text maxSize overlap start) ::
        chunkSpansFuel text maxSize overlap fuel (nextStart text maxSize overlap start)
    else []

def chunkSpans (text : List Char) (maxSize overlap : Nat) : List (Int × Int) :=
  chunkSpansFuel text maxSize overlap (text.length + 1) 0

/- Resilient API invoker (summarizer.py, _call_gemini_api, lines 14-63).
   The transport maps the attempt number to the HTTP response received:
   status code, raw body text, and the extracted candidate text when the
   response envelope has candidates (none models a missing/blocked
   candidate list). -/

structure Resp where
  status : Nat
  body : String
  candText : Option String

structure CallTrace where
  outcome : Except String String
  attempts : Nat
  delays : List Nat

def callGeminiApiFrom (t : Nat → Resp) : Nat → Nat → CallTrace
  | _, 0 => ⟨.error "Failed to generate summary after multiple retries.", 0, []⟩
  | attempt, fuel + 1 =>
    let r := t attempt
    if 400 ≤ r.status ∧ r.status < 600 then
      if attempt < 3 - 1 ∧ (r.status = 429 ∨ 500 ≤ r.status) then
        let rest := callGeminiApiFrom t (attempt + 1) fuel
        ⟨rest.outcome, rest.attempts + 1, 2 ^ attempt :: rest.delays⟩
      else
        ⟨.error ("Failed to generate summary due to API error: " ++ r.body), 1, []⟩
    else
      match r.candText with
      | some s => ⟨.ok s, 1, []⟩
      | none =>
        ⟨.error "An unexpected error occurred during summary generation: Gemini API returned no candidates or was blocked", 1, []⟩

def call_gemini_api (t : Nat → Resp) : CallTrace :=
  callGeminiApiFrom t 0 3

/- JSON values, as far as the quiz generator inspects them. -/

inductive JValue where
  | obj (fields : List (String × JValue))
  | arr (elems : List JValue)
  | str (s : String)
  | num (n : Int)
  | bool (b : Bool)
  | null

def getField : List (String × JValue) → String → Option JValue
  | [], _ => none
  | (k, v) :: rest, key => if k = key then some v else getField rest key

def setField : List (String × JValue) → String → JValue → List (String × JValue)
  | [], key, v => [(key, v)]
  | (k, w) :: rest, key, v => if k = key then (key, v) :: rest else (k, w) :: setField rest key v

def JValue.isObj : JValue → Bool
  | .obj _ => true
  | _ => false

/- Structured-output normalization (quizgenerator.py, lines 54-70): the
   parsed field models json.loads of the text payload, none being a
   JSONDecodeError. -/

def normalizeParsed : Option JValue → JValue
  | none => .obj [("questions", .arr [])]
  | some p =>
    match p with
    | .obj fs => if (getField fs "questions").isSome then .obj fs else .obj [("questions", .arr [])]
    | _ => .obj [("questions", .arr [])]

/- Structured API invoker (quizgenerator.py, _call_gemini_api_structured,
   lines 15-88): same retry loop, success value is the normalized parsed
   payload. -/

structure SResp where
  status : Nat
  body : String
  hasCands : Bool
  parsed : Option JValue

structure SCallTrace where
  outcome : Except String JValue
  attempts : Nat
  delays : List Nat

def callGeminiStructuredFrom (t : Nat → SResp) : Nat → Nat → SCallTrace
  | _, 0 => ⟨.error "Failed to generate quiz after multiple retries.", 0, []⟩
  | attempt, fuel + 1 =>
    let r := t attempt
    if 400 ≤ r.status ∧ r.status < 600 then
      if attempt < 3 - 1 ∧ (r.status = 429 ∨ 500 ≤ r.status) then
        let rest := callGeminiStructuredFrom t (attempt + 1) fuel
        ⟨rest.outcome, rest.attempts + 1, 2 ^ attempt :: rest.delays⟩
      else
        ⟨.error ("Failed to generate quiz due to API error: " ++ r.body), 1, []⟩
    else
      if r.hasCands then
        ⟨.ok (normalizeParsed r.parsed), 1, []⟩
      else
        ⟨.error "An unexpected error occurred during API call: API returned an invalid or empty response structure.", 1, []⟩

def call_gemini_api_structured (t : Nat → SResp) : SCallTrace :=
  callGeminiStructuredFrom t 0 3

/- Renumbering loop of create_quiz_from_text (quizgenerator.py, lines
   159-161): for i, q in enumerate(quiz_data.get('questions', [])):
   q['questionNumber'] = i + 1.  Assignment into a non-dict item, or
   iteration over a non-sequence value, raises a TypeError. -/

def renumberItems : List JValue → Nat → Except String (List JValue)
  | [], _ => .ok []
  | q :: rest, i =>
    match q with
    | .obj fs =>
      (renumberItems rest (i + 1)).map
        (fun tail => .obj (setField fs "questionNumber" (.num ((i : Int) + 1))) :: tail)
    | _ => .error "TypeError: item does not support item assignment"

def setQNum (q : JValue) (k : Int) : JValue :=
  match q with
  | .obj fs => .obj (setField fs "questionNumber" (.num k))
  | v => v

def renumberPure : Nat → List JValue → List JValue
  | _, [] => []
  | i, q :: rest => setQNum q ((i : Int) + 1) :: renumberPure (i + 1) rest

def renumberQuiz : JValue → Except String JValue
  | .obj fs =>
    match getField fs "questions" with
    | none => .ok (.obj fs)
    | some (.arr items) =>
      (renumberItems items 0).map (fun items2 => .obj (setField fs "questions" (.arr items2)))
    | some (.str s) =>
      if s = "" then .ok (.obj fs) else .error "TypeError: item does not support item assignment"
    | some (.obj fs2) =>
      if fs2.isEmpty then .ok (.obj fs) else .error "TypeError: item does not support item assignment"
    | some _ => .error "TypeError: object is not iterable"
  | _ => .error "AttributeError: object has no attribute get"

/- create_quiz_from_text (quizgenerator.py, lines 91-164). -/

structure QuizRun where
  outcome : Except String JValue
  apiAttempts : Nat

def create_quiz_from_text (source : String) (numQuestions : Nat) (difficulty : String)
    (apiKey : String) (t : Nat → SResp) : QuizRun :=
  if (pyStrip source.toList).isEmpty then
    ⟨.error "Source content for quiz generation is empty.", 0⟩
  else if apiKey = "" then
    ⟨.error "Gemini API Key is required for quiz generation.", 0⟩
  else
    let call := call_gemini_api_structured t
    match call.outcome with
    | .error e => ⟨.error e, call.attempts⟩
    | .ok quiz =>
      match renumberQuiz quiz with
      | .ok quiz2 => ⟨.ok quiz2, call.attempts⟩
      | .error e => ⟨.error e, call.attempts⟩

/- generate_summary (summarizer.py, lines 95-167).  The invoker is
   abstracted as a function from (system prompt, user query) to the result
   of _call_gemini_api; writeOk tells whether writing the output file
   succeeds; slot0 is the previous content of the output slot. -/

def segment_system_prompt : String :=
  "You are a segment summarizer. Read the following text chunk from a large document. Generate a detailed, stand-alone summary for this chunk, retaining all key concepts. The summary must be precise and objective. Do not introduce yourself."

def final_system_prompt : String :=
  "You are an expert academic assistant. Analyze the provided text from the document and generate a comprehensive, clear, and professional summary suitable for study or analysis. The summary must be approximately 300 words and focus on key arguments, findings, and conclusions. Format the summary as continuous, readable paragraphs."

def segmentQuery (chunk : String) : String :=
  "Summarize this segment:\n\n---\n\n" ++ chunk

def runSegments (invoke : String → String → Except String String) :
    List String → Except String (List String) × List (String × String)
  | [] => (.ok [], [])
  | c :: rest =>
    match invoke segment_system_prompt (segmentQuery c) with
    | .ok s =>
      let r := runSegments invoke rest
      ((r.1).map (fun tail => s :: tail), (segment_system_prompt, segmentQuery c) :: r.2)
    | .error e => (.error e, [(segment_system_prompt, segmentQuery c)])

structure SummaryRun where
  calls : List (String × String)
  slot : String
  outcome : Except String String

def summaryStage1 (text : String) (invoke : String → String → Except String String) :
    Except String String × List (String × String) :=
  if text.length > CHUNK_SIZE then
    let chunks := (chunk_text text.toList CHUNK_SIZE CHUNK_OVERLAP).map (fun l => String.mk l)
    let r := runSegments invoke chunks
    ((r.1).map (fun l => String.intercalate "\n\n---\n\n" l), r.2)
  else
    (.ok text, [])

def generate_summary (text outPath apiKey : String)
    (invoke : String → String → Except String String)
    (slot0 : String) (writeOk : Bool) : SummaryRun :=
  if apiKey = "" then
    ⟨[], slot0, .error "Gemini API Key is required for summarization."⟩
  else
    match summaryStage1 text invoke with
    | (.error e, calls) => ⟨calls, slot0, .error e⟩
    | (.ok finalInput, calls) =>
      match invoke final_system_prompt finalInput with
      | .error e => ⟨calls ++ [(final_system_prompt, finalInput)], slot0, .error e⟩
      | .ok summary =>
        if writeOk then
          ⟨calls ++ [(final_system_prompt, finalInput)], summary, .ok summary⟩
        else
          ⟨calls ++ [(final_system_prompt, finalInput)], slot0,
            .error ("Failed to save summary to " ++ outPath)⟩

/- Concrete inputs used by counterexamples and witnesses. -/

def badText : List Char := String.toList "ab.aaaaaaaaaaaaaaaaa"

def sampleText : List Char := String.toList "one. two. three. four. five."

def tMock429 : Nat → Resp :=
  fun i => if i < 2 then ⟨429, "rate limited", none⟩ else ⟨200, "", some "summary text"⟩

def wellFormedQuestions : List JValue :=
  [.obj [("questionNumber", .num 3), ("question", .str "Q1")],
   .obj [("questionNumber", .num 1), ("question", .str "Q2")],
   .obj [("questionNumber", .num 2), ("question", .str "Q3")]]

def tQuizOk : Nat → SResp :=
  fun _ => ⟨200, "", true, some (.obj [("questions", .arr wellFormedQuestions)])⟩

def tMalformed : Nat → SResp :=
  fun _ => ⟨200, "", true, some (.str "not json at all")⟩

def tBadQ : Nat → SResp :=
  fun _ => ⟨200, "", true, some (.obj [("questions", .num 7)])⟩

/- Accessor used to state the renumbering claims. -/

def questionNumberOf : JValue → Option JValue
  | .obj fs => getField fs "questionNumber"
  | _ => none

/- Predicate classes used to state the claims about the invoker. -/

def retryableResp (r : Resp) : Prop :=
  (400 ≤ r.status ∧ r.status < 600) ∧ (r.status = 429 ∨ 500 ≤ r.status)

def retryableSResp (r : SResp) : Prop :=
  (400 ≤ r.status ∧ r.status < 600) ∧ (r.status = 429 ∨ 500 ≤ r.status)

def payloadMalformed : Option JValue → Bool
  | none => true
  | some (.obj fs) => (getField fs "questions").isNone
  | some _ => true

/- Helper lemmas about the chunking primitives. -/

theorem lastIdxOf_lt_length {c : Char} {l : List Char} {j : Nat}
    (h : lastIdxOf c l = some j) : j < l.length := by
  induction l generalizing j with
  | nil => simp [lastIdxOf] at h
  | cons a as ih =>
    rw [lastIdxOf] at h
    cases hrec : lastIdxOf c as with
    | some j2 =>
      simp only [hrec] at h
      injection h with h
      have := ih hrec
      simp only [List.length_cons]
      omega
    | none =>
      simp only [hrec] at h
      by_cases hac : a = c
      · rw [if_pos hac] at h
        injection h with h
        simp only [List.length_cons]
        omega
      · rw [if_neg hac] at h
        exact absurd h (by simp)

theorem pyRfind_bound (l : List Char) (c : Char) (s e : Int)
    (h0 : 0 ≤ s) (hse : s ≤ e) (hen : e ≤ (l.length : Int)) :
    pyRfind l c s e = -1 ∨ (s ≤ pyRfind l c s e ∧ pyRfind l c s e < e) := by
  have hs2 : pySliceIdx l.length s = s.toNat := by
    unfold pySliceIdx
    rw [if_neg (by omega)]
    omega
  have he2 : pySliceIdx l.length e = e.toNat := by
    unfold pySliceIdx
    rw [if_neg (by omega)]
    omega
  unfold pyRfind
  rw [hs2, he2]
  cases hfind : lastIdxOf c ((l.drop s.toNat).take (e.toNat - s.toNat)) with
  | none => simp [hfind]
  | some j =>
    simp only [hfind]
    right
    have hj := lastIdxOf_lt_length hfind
    have hlen : ((l.drop s.toNat).take (e.toNat - s.toNat)).length ≤ e.toNat - s.toNat := by
      simp [List.length_take]
    constructor <;> omega

theorem chunkEnd_shape (text : List Char) (maxSize overlap : Nat) (start : Int)
    (hmo : overlap < maxSize) (h0 : 0 ≤ start) (hn : start < (text.length : Int)) :
    (chunkEnd text maxSize overlap start = min (start + (maxSize : Int)) (text.length : Int) ∨
      start + (maxSize : Int) - (overlap : Int) + 2 ≤ chunkEnd text maxSize overlap start) ∧
    start < chunkEnd text maxSize overlap start ∧
    chunkEnd text maxSize overlap start ≤ (text.length : Int) := by
  have hb1 := pyRfind_bound text '.' start (min (start + (maxSize : Int)) (text.length : Int))
    h0 (by omega) (by omega)
  have hb2 := pyRfind_bound text '\n' start (min (start + (maxSize : Int)) (text.length : Int))
    h0 (by omega) (by omega)
  simp only [chunkEnd]
  split
  · split
    · rcases hb1 with hb1 | hb1 <;> rcases hb2 with hb2 | hb2 <;>
        exact ⟨Or.inr (by omega), by omega, by omega⟩
    · exact ⟨Or.inl rfl, by omega, by omega⟩
  · exact ⟨Or.inl rfl, by omega, by omega⟩

theorem nextStart_progress (text : List Char) (maxSize overlap : Nat) (start : Int)
    (hmo : overlap < maxSize) (h2 : 2 * overlap ≤ maxSize + 1)
    (h0 : 0 ≤ start) (hn : start < (text.length : Int)) :
    start < nextStart text maxSize overlap start := by
  have hs := chunkEnd_shape text maxSize overlap start hmo h0 hn
  simp only [nextStart]
  split
  · rcases hs.1 with h | h <;> omega
  · omega

theorem nextStart_le_chunkEnd (text : List Char) (maxSize overlap : Nat) (start : Int)
    (hmo : overlap < maxSize) (h0 : 0 ≤ start) (hn : start < (text.length : Int)) :
    nextStart text maxSize overlap start ≤ chunkEnd text maxSize overlap start := by
  have hs := chunkEnd_shape text maxSize overlap start hmo h0 hn
  simp only [nextStart]
  split <;> omega

theorem chunkTextFuel_past (text : List Char) (maxSize overlap : Nat) (fuel : Nat) (start : Int)
    (h : (text.length : Int) ≤ start) :
    chunkTextFuel text maxSize overlap fuel start = [] := by
  cases fuel with
  | zero => rfl
  | succ f =>
    rw [chunkTextFuel]
    rw [if_neg (by omega)]

theorem chunkSpansFuel_past (text : List Char) (maxSize overlap : Nat) (fuel : Nat) (start : Int)
    (h : (text.length : Int) ≤ start) :
    chunkSpansFuel text maxSize overlap fuel start = [] := by
  cases fuel with
  | zero => rfl
  | succ f =>
    rw [chunkSpansFuel]
    rw [if_neg (by omega)]

theorem chunkTextFuel_stable (text : List Char) (maxSize overlap : Nat)
    (hmo : overlap < maxSize) (h2 : 2 * overlap ≤ maxSize + 1) :
    ∀ f1 f2 : Nat, ∀ start : Int, 0 ≤ start →
      (text.length : Int) - start < (f1 : Int) → (text.length : Int) - start < (f2 : Int) →
      chunkTextFuel text maxSize overlap f1 start = chunkTextFuel text maxSize overlap f2 start := by
  intro f1
  induction f1 with
  | zero =>
    intro f2 start h0 hf1 hf2
    rw [chunkTextFuel_past text maxSize overlap 0 start (by omega),
      chunkTextFuel_past text maxSize overlap f2 start (by omega)]
  | succ g ih =>
    intro f2 start h0 hf1 hf2
    by_cases hn : start < (text.length : Int)
    · cases f2 with
      | zero => omega
      | succ h =>
        rw [chunkTextFuel, chunkTextFuel, if_pos hn, if_pos hn]
        have hprog := nextStart_progress text maxSize overlap start hmo h2 h0 hn
        rw [ih h (nextStart text maxSize overlap start) (by omega) (by omega) (by omega)]
    · rw [chunkTextFuel_past text maxSize overlap _ start (by omega),
        chunkTextFuel_past text maxSize overlap f2 start (by omega)]

theorem chunkSpansFuel_covers (text : List Char) (maxSize overlap : Nat)
    (hmo : overlap < maxSize) (h2 : 2 * overlap ≤ maxSize + 1) :
    ∀ f : Nat, ∀ start : Int, 0 ≤ start → (text.length : Int) - start < (f : Int) →
      ∀ p : Int, start ≤ p → p < (text.length : Int) →
      ∃ sp ∈ chunkSpansFuel text maxSize overlap f start, sp.1 ≤ p ∧ p < sp.2 := by
  intro f
  induction f with
  | zero => intro start h0 hf p hsp hpn; omega
  | succ g ih =>
    intro start h0 hf p hsp hpn
    have hn : start < (text.length : Int) := by omega
    have hprog := nextStart_progress text maxSize overlap start hmo h2 h0 hn
    have hle := nextStart_le_chunkEnd text maxSize overlap start hmo h0 hn
    rw [chunkSpansFuel, if_pos hn]
    by_cases hpnext : p < nextStart text maxSize overlap start
    · exact ⟨(start, chunkEnd text maxSize overlap start), List.mem_cons_self _ _,
        by simpa using hsp, by simp; omega⟩
    · obtain ⟨sp, hmem, hsp1, hsp2⟩ :=
        ih (nextStart text maxSize overlap start) (by omega) (by omega) p (by omega) hpn
      exact ⟨sp, List.mem_cons_of_mem _ hmem, hsp1, hsp2⟩

theorem chunkSpansFuel_head (text : List Char) (maxSize overlap : Nat) (f : Nat) (start : Int) :
    chunkSpansFuel text maxSize overlap f start = [] ∨
    ∃ e rest, chunkSpansFuel text maxSize overlap f start = (start, e) :: rest := by
  cases f with
  | zero => left; rfl
  | succ g =>
    rw [chunkSpansFuel]
    split
    · right; exact ⟨_, _, rfl⟩
    · left; rfl

theorem chunkSpansFuel_chain (text : List Char) (maxSize overlap : Nat)
    (hmo : overlap < maxSize) (h2 : 2 * overlap ≤ maxSize + 1) :
    ∀ f : Nat, ∀ start : Int, 0 ≤ start →
      List.Chain' (fun a b => b.1 = a.2 - (overlap : Int))
        (chunkSpansFuel text maxSize overlap f start) := by
  intro f
  induction f with
  | zero => intro start h0; exact List.chain'_nil
  | succ g ih =>
    intro start h0
    by_cases hn : start < (text.length : Int)
    · rw [chunkSpansFuel, if_pos hn]
      have hprog := nextStart_progress text maxSize overlap start hmo h2 h0 hn
      have hshape := chunkEnd_shape text maxSize overlap start hmo h0 hn
      rw [List.chain'_cons']
      constructor
      · intro b hb
        by_cases hce : chunkEnd text maxSize overlap start < (text.length : Int)
        · rcases chunkSpansFuel_head text maxSize overlap g
            (nextStart text maxSize overlap start) with hh | ⟨e, rest, hh⟩
          · rw [hh] at hb; simp at hb
          · rw [hh] at hb
            simp only [List.head?_cons, Option.mem_def, Option.some.injEq] at hb
            subst hb
            simp only [nextStart, if_pos hce]
        · have hns : nextStart text maxSize overlap start = (text.length : Int) := by
            simp only [nextStart, if_neg hce]
          rw [chunkSpansFuel_past text maxSize overlap g _ (by omega)] at hb
          simp at hb
      · exact ih (nextStart text maxSize overlap start) (by omega)
    · rw [chunkSpansFuel_past text maxSize overlap _ start (by omega)]
      exact List.chain'_nil

theorem chunkTextFuel_ne_nil (text : List Char) (maxSize overlap : Nat) :
    ∀ f : Nat, ∀ start : Int, ∀ c ∈ chunkTextFuel text maxSize overlap f start, c ≠ [] := by
  intro f
  induction f with
  | zero => intro start c hc; simp [chunkTextFuel] at hc
  | succ g ih =>
    intro start c hc
    rw [chunkTextFuel] at hc
    split at hc
    · split at hc
      · exact ih _ c hc
      · rcases List.mem_cons.mp hc with h | h
        · subst h
          intro hnil
          simp_all [List.isEmpty_iff]
        · exact ih _ c h
    · simp at hc

theorem chunkEnd_whole (text : List Char) (maxSize overlap : Nat)
    (hlen : text.length < maxSize) (hne : text ≠ []) :
    chunkEnd text maxSize overlap 0 = (text.length : Int) := by
  have hn : 0 < text.length := List.length_pos.mpr hne
  simp only [chunkEnd]
  rw [min_eq_right (by omega : (text.length : Int) ≤ 0 + (maxSize : Int))]
  rw [if_neg (by omega)]

theorem pySlice_whole (text : List Char) : pySlice text 0 (text.length : Int) = text := by
  simp only [pySlice, pySliceIdx]
  rw [if_neg (by omega), if_neg (by omega)]
  simp

theorem chunk_text_short (text : List Char) (maxSize overlap : Nat)
    (hlen : text.length < maxSize) (hne : pyStrip text ≠ []) :
    chunk_text text maxSize overlap = [pyStrip text] := by
  have htne : text ≠ [] := by
    intro h
    subst h
    exact hne rfl
  have hn : 0 < text.length := List.length_pos.mpr htne
  rw [chunk_text, chunkTextFuel, if_pos (by omega : (0 : Int) < (text.length : Int))]
  rw [chunkEnd_whole text maxSize overlap hlen htne, pySlice_whole]
  have hns : nextStart text maxSize overlap 0 = (text.length : Int) := by
    simp only [nextStart]
    rw [chunkEnd_whole text maxSize overlap hlen htne]
    rw [if_neg (by omega)]
  rw [hns, chunkTextFuel_past text maxSize overlap _ _ (by omega)]
  rw [if_neg (by simp [List.isEmpty_iff, hne])]

theorem chunk_text_short_ws (text : List Char) (maxSize overlap : Nat)
    (hlen : text.length < maxSize) (hws : pyStrip text = []) :
    chunk_text text maxSize overlap = [] := by
  by_cases htne : text = []
  · subst htne
    rfl
  · have hn : 0 < text.length := List.length_pos.mpr htne
    rw [chunk_text, chunkTextFuel, if_pos (by omega : (0 : Int) < (text.length : Int))]
    rw [chunkEnd_whole text maxSize overlap hlen htne, pySlice_whole]
    have hns : nextStart text maxSize overlap 0 = (text.length : Int) := by
      simp only [nextStart]
      rw [chunkEnd_whole text maxSize overlap hlen htne]
      rw [if_neg (by omega)]
    rw [hns, chunkTextFuel_past text maxSize overlap _ _ (by omega)]
    rw [if_pos (by simp [List.isEmpty_iff, hws])]

/-- C2 counterexample: with overlap = 9 < 10 = maxSize and the 20-character
text "ab.aaaaaaaaaaaaaaaaa", the very first loop step moves the start offset
from 0 backwards to -6, so the loop does not make forward progress, and the
start offset then reaches the fixed point -9 < len(text), on which the loop
spins forever. -/
theorem C2_forward_progress_cex :
    9 < 10 ∧ (0 : Int) ≤ 0 ∧ (0 : Int) < (badText.length : Int) ∧
    nextStart badText 10 9 0 = -6 ∧
    nextStart badText 10 9 (-6) = -9 ∧
    nextStart badText 10 9 (-9) = -9 ∧
    (-9 : Int) < (badText.length : Int) := by
  decide

/-- C2 (amended): when overlap < maxSize AND 2*overlap ≤ maxSize + 1, every
loop step of chunk_text strictly increases the start offset, and consequently
the loop terminates: the computation is independent of the iteration bound as
soon as that bound is at least len(text) + 1. -/
theorem C2_forward_progress (text : List Char) (maxSize overlap : Nat)
    (hmo : overlap < maxSize) (h2 : 2 * overlap ≤ maxSize + 1) :
    (∀ start : Int, 0 ≤ start → start < (text.length : Int) →
        start < nextStart text maxSize overlap start) ∧
    (∀ fuel : Nat, text.length + 1 ≤ fuel →
        chunkTextFuel text maxSize overlap fuel 0 = chunk_text text maxSize overlap) := by
  constructor
  · intro start h0 hn
    exact nextStart_progress text maxSize overlap start hmo h2 h0 hn
  · intro fuel hfuel
    exact chunkTextFuel_stable text maxSize overlap hmo h2 fuel (text.length + 1) 0
      (le_refl 0) (by omega) (by omega)

/-- C2 witness: on the sample text with maxSize = 10 and overlap = 4 the first
step makes forward progress and the chunk list is stable at fuel 40. -/
theorem C2_forward_progress_witness :
    (0 : Int) < nextStart sampleText 10 4 0 ∧
    chunkTextFuel sampleText 10 4 40 0 = chunk_text sampleText 10 4 := by
  constructor
  · exact (C2_forward_progress sampleText 10 4 (by decide) (by decide)).1 0
      (by decide) (by decide)
  · exact (C2_forward_progress sampleText 10 4 (by decide) (by decide)).2 40 (by decide)

/-- C3 counterexample: with overlap = 9 < 10 = maxSize, position 5 of the
20-character text "ab.aaaaaaaaaaaaaaaaa" is contained in no span ever computed
by the chunking loop, so the spans do not cover [0, len(text)). -/
theorem C3_chunk_coverage_cex :
    9 < 10 ∧ (0 : Int) ≤ 5 ∧ (5 : Int) < (badText.length : Int) ∧
    ∀ sp ∈ chunkSpans badText 10 9, ¬(sp.1 ≤ 5 ∧ (5 : Int) < sp.2) := by
  decide

/-- C3 (amended): when overlap < maxSize AND 2*overlap ≤ maxSize + 1, the
spans [start, end) computed by chunk_text (ignoring trimming) cover
[0, len(text)) with no gaps, and when overlap > 0 each chunk's start offset is
strictly less than the previous chunk's end offset. -/
theorem C3_chunk_coverage (text : List Char) (maxSize overlap : Nat)
    (hmo : overlap < maxSize) (h2 : 2 * overlap ≤ maxSize + 1) :
    (∀ p : Int, 0 ≤ p → p < (text.length : Int) →
        ∃ sp ∈ chunkSpans text maxSize overlap, sp.1 ≤ p ∧ p < sp.2) ∧
    (0 < overlap →
        List.Chain' (fun a b => b.1 < a.2) (chunkSpans text maxSize overlap)) := by
  constructor
  · intro p h0 hn
    exact chunkSpansFuel_covers text maxSize overlap hmo h2 (text.length + 1) 0
      (le_refl 0) (by omega) p h0 hn
  · intro hov
    have hchain := chunkSpansFuel_chain text maxSize overlap hmo h2 (text.length + 1) 0
      (le_refl 0)
    exact hchain.imp (fun a b hab => by omega)

/-- C3 witness: on the sample text with maxSize = 10 and overlap = 4, position
13 is covered by some span, and consecutive spans overlap. -/
theorem C3_chunk_coverage_witness :
    (∃ sp ∈ chunkSpans sampleText 10 4, sp.1 ≤ 13 ∧ (13 : Int) < sp.2) ∧
    List.Chain' (fun a b => b.1 < a.2) (chunkSpans sampleText 10 4) := by
  constructor
  · exact (C3_chunk_coverage sampleText 10 4 (by decide) (by decide)).1 13
      (by decide) (by decide)
  · exact (C3_chunk_coverage sampleText 10 4 (by decide) (by decide)).2 (by decide)

/-- C8 counterexample: the single-space text is shorter than maxSize = 2 yet
chunk_text produces zero chunks, not one chunk equal to the trimmed input,
because the trimmed chunk is empty and is dropped. -/
theorem C8_chunk_edge_cases_cex :
    (String.toList " ").length < 2 ∧
    chunk_text (String.toList " ") 2 0 = [] ∧
    chunk_text (String.toList " ") 2 0 ≠ [pyStrip (String.toList " ")] := by
  decide

/-- C8 (amended): chunk_text on empty input produces zero chunks; for every
text shorter than maxSize whose trimmed content is non-empty it produces
exactly one chunk equal to the trimmed input; for every text shorter than
maxSize that trims to empty it produces zero chunks; and every emitted chunk
is non-empty (chunks trimming to empty are dropped). -/
theorem C8_chunk_edge_cases (maxSize overlap : Nat) :
    (chunk_text [] maxSize overlap = []) ∧
    (∀ text : List Char, text.length < maxSize → pyStrip text ≠ [] →
        chunk_text text maxSize overlap = [pyStrip text]) ∧
    (∀ text : List Char, text.length < maxSize → pyStrip text = [] →
        chunk_text text maxSize overlap = []) ∧
    (∀ text : List Char, ∀ c ∈ chunk_text text maxSize overlap, c ≠ []) := by
  refine ⟨rfl, ?_, ?_, ?_⟩
  · intro text hlen hne
    exact chunk_text_short text maxSize overlap hlen hne
  · intro text hlen hws
    exact chunk_text_short_ws text maxSize overlap hlen hws
  · intro text c hc
    exact chunkTextFuel_ne_nil text maxSize overlap _ _ c hc

/-- C8 witness: a short non-blank text yields exactly its trimmed content as
the only chunk, and a short all-whitespace text yields zero chunks. -/
theorem C8_chunk_edge_cases_witness :
    chunk_text (String.toList " hello world ") 100 5 =
      [pyStrip (String.toList " hello world ")] ∧
    chunk_text (String.toList "   ") 100 5 = [] := by
  constructor
  · exact (C8_chunk_edge_cases 100 5).2.1 (String.toList " hello world ")
      (by decide) (by decide)
  · exact (C8_chunk_edge_cases 100 5).2.2.1 (String.toList "   ") (by decide) (by decide)

/-- C1: the API invoker makes at most 3 attempts (for both the plain and the
structured variant); the backoff delays are a prefix of [1, 2] (2^attempt
seconds after the failing attempt: 1s before the second, 2s before the third);
an attempt beyond the first happens only when the previous response had a
retryable status (429 or 5xx); a non-retryable HTTP error status on the first
attempt raises immediately, carrying the response body; three consecutive
retryable failures raise an error carrying the last response body after
exactly 3 attempts and 2 delays, with no fourth attempt; and a transport that
returns 429 twice then succeeds yields the successful result after exactly 3
attempts and 2 delays. -/
theorem C1_retry_policy :
    (∀ t : Nat → Resp, (call_gemini_api t).attempts ≤ 3) ∧
    (∀ t : Nat → SResp, (call_gemini_api_structured t).attempts ≤ 3) ∧
    (∀ t : Nat → Resp,
        (call_gemini_api t).delays = [] ∨ (call_gemini_api t).delays = [1] ∨
        (call_gemini_api t).delays = [1, 2]) ∧
    (∀ t : Nat → Resp,
        (2 ≤ (call_gemini_api t).attempts → retryableResp (t 0)) ∧
        (3 ≤ (call_gemini_api t).attempts → retryableResp (t 0) ∧ retryableResp (t 1))) ∧
    (∀ t : Nat → Resp, 400 ≤ (t 0).status → (t 0).status < 600 →
        ¬((t 0).status = 429 ∨ 500 ≤ (t 0).status) →
        call_gemini_api t =
          ⟨.error ("Failed to generate summary due to API error: " ++ (t 0).body), 1, []⟩) ∧
    (∀ t : Nat → Resp, retryableResp (t 0) → retryableResp (t 1) → retryableResp (t 2) →
        call_gemini_api t =
          ⟨.error ("Failed to generate summary due to API error: " ++ (t 2).body), 3, [1, 2]⟩) ∧
    (∀ (t : Nat → Resp) (s : String), retryableResp (t 0) → retryableResp (t 1) →
        (t 2).status < 400 → (t 2).candText = some s →
        call_gemini_api t = ⟨.ok s, 3, [1, 2]⟩) := by
  refine ⟨?_, ?_, ?_, ?_, ?_, ?_, ?_⟩
  · intro t
    simp only [call_gemini_api, callGeminiApiFrom]
    repeat' split
    all_goals simp
  · intro t
    simp only [call_gemini_api_structured, callGeminiStructuredFrom]
    repeat' split
    all_goals simp
  · intro t
    simp only [call_gemini_api, callGeminiApiFrom]
    repeat' split
    all_goals simp_all
  · intro t
    simp only [call_gemini_api, callGeminiApiFrom, retryableResp]
    repeat' split
    all_goals simp_all
  · intro t hs1 hs2 hnr
    simp only [call_gemini_api, callGeminiApiFrom]
    rw [if_pos ⟨hs1, hs2⟩, if_neg (fun hc => hnr hc.2)]
  · intro t h0 h1 h2
    have e1 : (0 : Nat) + 1 = 1 := rfl
    have e2 : (0 : Nat) + 1 + 1 = 2 := rfl
    simp only [call_gemini_api, callGeminiApiFrom, e1, e2]
    rw [if_pos h0.1, if_pos ⟨by omega, h0.2⟩]
    rw [if_pos h1.1, if_pos ⟨by omega, h1.2⟩]
    rw [if_pos h2.1, if_neg (fun hc => by omega)]
    rfl
  · intro t s h0 h1 hs hc
    have e1 : (0 : Nat) + 1 = 1 := rfl
    have e2 : (0 : Nat) + 1 + 1 = 2 := rfl
    simp only [call_gemini_api, callGeminiApiFrom, e1, e2]
    rw [if_pos h0.1, if_pos ⟨by omega, h0.2⟩]
    rw [if_pos h1.1, if_pos ⟨by omega, h1.2⟩]
    rw [if_neg (fun hcond => by omega), hc]
    rfl

/-- C1 witness: the mocked transport that returns 429 twice and then a
successful response makes the invoker return the success after exactly 3
attempts and the delays [1, 2]. -/
theorem C1_retry_policy_witness :
    call_gemini_api tMock429 = ⟨.ok "summary text", 3, [1, 2]⟩ := by
  exact C1_retry_policy.2.2.2.2.2.2 tMock429 "summary text"
    (by constructor <;> [constructor; skip] <;> decide)
    (by constructor <;> [constructor; skip] <;> decide)
    (by decide) rfl

/- Helper lemmas about the quiz pipeline. -/

theorem normalize_malformed (p : Option JValue) (hm : payloadMalformed p = true) :
    normalizeParsed p = .obj [("questions", .arr [])] := by
  cases p with
  | none => rfl
  | some v =>
    cases v with
    | obj fs =>
      simp only [payloadMalformed] at hm
      simp only [normalizeParsed]
      rw [if_neg (by simp_all [Option.isNone_iff_eq_none])]
    | arr l => rfl
    | str s => rfl
    | num n => rfl
    | bool b => rfl
    | null => rfl

theorem normalize_with_questions (fs : List (String × JValue)) (v : JValue)
    (h : getField fs "questions" = some v) :
    normalizeParsed (some (.obj fs)) = .obj fs := by
  simp [normalizeParsed, h]

theorem structured_call_first_ok (t : Nat → SResp)
    (hs : (t 0).status < 400) (hc : (t 0).hasCands = true) :
    call_gemini_api_structured t = ⟨.ok (normalizeParsed (t 0).parsed), 1, []⟩ := by
  simp only [call_gemini_api_structured, callGeminiStructuredFrom]
  rw [if_neg (fun hcon => by omega), if_pos hc]

theorem create_quiz_first_ok (source : String) (nq : Nat) (d key : String) (t : Nat → SResp)
    (hsrc : pyStrip source.toList ≠ []) (hkey : key ≠ "")
    (hs : (t 0).status < 400) (hc : (t 0).hasCands = true) :
    create_quiz_from_text source nq d key t =
      ⟨renumberQuiz (normalizeParsed (t 0).parsed), 1⟩ := by
  simp only [create_quiz_from_text]
  rw [if_neg (fun hemp => hsrc (List.isEmpty_iff.mp hemp)), if_neg hkey]
  rw [structured_call_first_ok t hs hc]
  cases hr : renumberQuiz (normalizeParsed (t 0).parsed) <;> simp [hr]

theorem getField_setField_self (fs : List (String × JValue)) (key : String) (v : JValue) :
    getField (setField fs key v) key = some v := by
  induction fs with
  | nil => simp [setField, getField]
  | cons kv rest ih =>
    obtain ⟨k, w⟩ := kv
    by_cases hk : k = key
    · rw [setField, if_pos hk, getField, if_pos rfl]
    · rw [setField, if_neg hk, getField, if_neg hk]
      exact ih

theorem renumberItems_eq_pure :
    ∀ (items : List JValue) (base : Nat), (∀ q ∈ items, q.isObj = true) →
      renumberItems items base = .ok (renumberPure base items) := by
  intro items
  induction items with
  | nil => intro base hall; rfl
  | cons q rest ih =>
    intro base hall
    cases q with
    | obj fs =>
      rw [renumberItems, ih (base + 1) (fun x hx => hall x (List.mem_cons_of_mem _ hx))]
      rfl
    | arr l => exact absurd (hall _ (List.mem_cons_self _ _)) (by simp [JValue.isObj])
    | str s => exact absurd (hall _ (List.mem_cons_self _ _)) (by simp [JValue.isObj])
    | num n => exact absurd (hall _ (List.mem_cons_self _ _)) (by simp [JValue.isObj])
    | bool b => exact absurd (hall _ (List.mem_cons_self _ _)) (by simp [JValue.isObj])
    | null => exact absurd (hall _ (List.mem_cons_self _ _)) (by simp [JValue.isObj])

theorem renumberPure_length (items : List JValue) :
    ∀ base : Nat, (renumberPure base items).length = items.length := by
  induction items with
  | nil => intro base; rfl
  | cons q rest ih =>
    intro base
    simp [renumberPure, ih]

theorem renumberPure_get :
    ∀ (items : List JValue) (base i : Nat) (h : i < (renumberPure base items).length)
      (h2 : i < items.length),
      (renumberPure base items).get ⟨i, h⟩ =
        setQNum (items.get ⟨i, h2⟩) ((base : Int) + (i : Int) + 1) := by
  intro items
  induction items with
  | nil => intro base i h h2; exact absurd h2 (by simp)
  | cons q rest ih =>
    intro base i h h2
    cases i with
    | zero =>
      simp [renumberPure, List.get]
    | succ j =>
      simp only [renumberPure, List.get]
      rw [ih (base + 1) j (by simpa [renumberPure] using h) (by simpa using h2)]
      congr 1
      push_cast
      ring

theorem questionNumberOf_setQNum (q : JValue) (hq : q.isObj = true) (k : Int) :
    questionNumberOf (setQNum q k) = some (.num k) := by
  cases q with
  | obj fs => simp [setQNum, questionNumberOf, getField_setField_self]
  | arr l => simp [JValue.isObj] at hq
  | str s => simp [JValue.isObj] at hq
  | num n => simp [JValue.isObj] at hq
  | bool b => simp [JValue.isObj] at hq
  | null => simp [JValue.isObj] at hq

/-- C5: for every schema-constrained call whose response envelope has
candidates but whose text payload is not valid JSON, or parses to a non-object
value, or parses to an object lacking a questions key, generateQuiz returns
the quiz object with an empty questions array instead of raising. -/
theorem C5_malformed_degradation (source : String) (nq : Nat) (d key : String)
    (t : Nat → SResp)
    (hsrc : pyStrip source.toList ≠ []) (hkey : key ≠ "")
    (hs : (t 0).status < 400) (hc : (t 0).hasCands = true)
    (hm : payloadMalformed (t 0).parsed = true) :
    (create_quiz_from_text source nq d key t).outcome =
      .ok (.obj [("questions", .arr [])]) := by
  rw [create_quiz_first_ok source nq d key t hsrc hkey hs hc]
  show renumberQuiz (normalizeParsed (t 0).parsed) = .ok (.obj [("questions", .arr [])])
  rw [normalize_malformed _ hm]
  rfl

/-- C5 witness: a transport whose payload parses to a non-object string makes
generateQuiz return the empty quiz. -/
theorem C5_witness :
    (create_quiz_from_text "abc" 1 "easy" "KEY" tMalformed).outcome =
      .ok (.obj [("questions", .arr [])]) :=
  C5_malformed_degradation "abc" 1 "easy" "KEY" tMalformed (by decide) (by decide)
    (by decide) rfl rfl

/-- C4: for every quiz result returned by create_quiz_from_text, whatever
questionNumber values the upstream call produced, the result is the upstream
object with its questions renumbered in place: the questions array keeps its
length and order (item i of the result is item i of the upstream array with
only its questionNumber field replaced), and item i carries questionNumber
i + 1. -/
theorem C4_sequential_renumbering (source : String) (nq : Nat) (d key : String)
    (t : Nat → SResp) (fs : List (String × JValue)) (items : List JValue)
    (hsrc : pyStrip source.toList ≠ []) (hkey : key ≠ "")
    (hs : (t 0).status < 400) (hc : (t 0).hasCands = true)
    (hp : (t 0).parsed = some (.obj fs))
    (hq : getField fs "questions" = some (.arr items))
    (hall : ∀ q ∈ items, q.isObj = true) :
    (create_quiz_from_text source nq d key t).outcome =
      .ok (.obj (setField fs "questions" (.arr (renumberPure 0 items)))) ∧
    (renumberPure 0 items).length = items.length ∧
    (∀ (i : Nat) (h : i < (renumberPure 0 items).length) (h2 : i < items.length),
      (renumberPure 0 items).get ⟨i, h⟩ = setQNum (items.get ⟨i, h2⟩) ((i : Int) + 1) ∧
      questionNumberOf ((renumberPure 0 items).get ⟨i, h⟩) = some (.num ((i : Int) + 1))) := by
  refine ⟨?_, renumberPure_length items 0, ?_⟩
  · rw [create_quiz_first_ok source nq d key t hsrc hkey hs hc]
    show renumberQuiz (normalizeParsed (t 0).parsed) = _
    rw [hp, normalize_with_questions fs _ hq]
    simp only [renumberQuiz, hq]
    rw [renumberItems_eq_pure items 0 hall]
    rfl
  · intro i h h2
    have hget := renumberPure_get items 0 i h h2
    have hobj : (items.get ⟨i, h2⟩).isObj = true := hall _ (items.get_mem i h2)
    constructor
    · rw [hget]
      norm_num
    · rw [hget, questionNumberOf_setQNum _ hobj]
      norm_num

/-- C4 witness: with a mocked upstream returning 3 well-formed questions
numbered [3, 1, 2], the result keeps the array order and carries
questionNumber values [1, 2, 3]. -/
theorem C4_witness :
    (create_quiz_from_text "Photosynthesis converts light to energy." 3 "easy"
        "VALIDKEY" tQuizOk).outcome =
      .ok (.obj [("questions", .arr
        [.obj [("questionNumber", .num 1), ("question", .str "Q1")],
         .obj [("questionNumber", .num 2), ("question", .str "Q2")],
         .obj [("questionNumber", .num 3), ("question", .str "Q3")]])]) := by
  have h := C4_sequential_renumbering "Photosynthesis converts light to energy." 3 "easy"
    "VALIDKEY" tQuizOk [("questions", .arr wellFormedQuestions)] wellFormedQuestions
    (by decide) (by decide) (by decide) rfl rfl rfl
    (by intro q hq; fin_cases hq <;> rfl)
  exact h.1

/-- C10: a schema-call text payload that is valid JSON and is an object whose
questions key holds a non-list value (here the number 7) passes through the
normalization of the structured call unchanged, and the renumbering step of
create_quiz_from_text then raises a TypeError instead of returning a quiz, so
the graceful degradation to an empty quiz does not cover this shape. -/
theorem C10_nonlist_questions :
    normalizeParsed (some (.obj [("questions", .num 7)])) =
      .obj [("questions", .num 7)] ∧
    (create_quiz_from_text "Some source text." 2 "easy" "KEY" tBadQ).outcome =
      .error "TypeError: object is not iterable" ∧
    (∀ q : JValue,
      (create_quiz_from_text "Some source text." 2 "easy" "KEY" tBadQ).outcome ≠ .ok q) := by
  have h2 : (create_quiz_from_text "Some source text." 2 "easy" "KEY" tBadQ).outcome =
      .error "TypeError: object is not iterable" := rfl
  refine ⟨rfl, h2, ?_⟩
  intro q h
  rw [h2] at h
  exact Except.noConfusion h

/- Helper lemma: short texts skip chunking. -/

theorem summaryStage1_short (text : String) (invoke : String → String → Except String String)
    (hlen : text.length ≤ CHUNK_SIZE) :
    summaryStage1 text invoke = (.ok text, []) := by
  simp only [summaryStage1]
  rw [if_neg (by omega)]

/-- C6: for every source text of length at most CHUNK_SIZE (15000 characters)
and a non-empty credential, generate_summary skips chunking and performs
exactly one invoker call, whose query input is the whole source text. -/
theorem C6_single_chunk_shortcut (text outPath key : String)
    (invoke : String → String → Except String String) (slot0 : String) (writeOk : Bool)
    (hlen : text.length ≤ CHUNK_SIZE) (hkey : key ≠ "") :
    (generate_summary text outPath key invoke slot0 writeOk).calls =
      [(final_system_prompt, text)] := by
  simp only [generate_summary]
  rw [if_neg hkey, summaryStage1_short text invoke hlen]
  cases hres : invoke final_system_prompt text with
  | error e => simp [hres]
  | ok summary => cases writeOk <;> simp [hres]

/-- C6 witness: a 2-character text with a mocked invoker produces exactly one
call carrying the final persona prompt and the whole text. -/
theorem C6_single_chunk_shortcut_witness :
    (generate_summary "hi" "output.txt" "K" (fun _ q => .ok q) "old" true).calls =
      [(final_system_prompt, "hi")] :=
  C6_single_chunk_shortcut "hi" "output.txt" "K" (fun _ q => .ok q) "old" true
    (by decide) (by decide)

/-- C7 counterexample: calling generateQuiz with BOTH a blank source text and
an empty credential raises the empty-source validation error, not the
missing-credential configuration error, so "for every input" the claim fails. -/
theorem C7_credential_gating_cex :
    (create_quiz_from_text "" 3 "easy" "" tBadQ).outcome =
      .error "Source content for quiz generation is empty." ∧
    (create_quiz_from_text "" 3 "easy" "" tBadQ).outcome ≠
      .error "Gemini API Key is required for quiz generation." := by
  have h : (create_quiz_from_text "" 3 "easy" "" tBadQ).outcome =
      .error "Source content for quiz generation is empty." := rfl
  refine ⟨h, ?_⟩
  intro hcon
  rw [h] at hcon
  exact absurd (Except.error.inj hcon) (by decide)

/-- C7 (amended): generate_summary with an empty credential raises the
missing-credential error with no invoker call for every input, and
create_quiz_from_text with an empty credential and a non-blank source text
raises the missing-credential error with no network attempt (when the source
text is blank, the empty-source validation error is raised first, still before
any network call). -/
theorem C7_credential_gating :
    (∀ (text outPath : String) (invoke : String → String → Except String String)
        (slot0 : String) (writeOk : Bool),
        generate_summary text outPath "" invoke slot0 writeOk =
          ⟨[], slot0, .error "Gemini API Key is required for summarization."⟩) ∧
    (∀ (source : String) (nq : Nat) (d : String) (t : Nat → SResp),
        pyStrip source.toList ≠ [] →
        create_quiz_from_text source nq d "" t =
          ⟨.error "Gemini API Key is required for quiz generation.", 0⟩) := by
  constructor
  · intro text outPath invoke slot0 writeOk
    simp [generate_summary]
  · intro source nq d t hsrc
    simp only [create_quiz_from_text]
    rw [if_neg (fun hemp => hsrc (List.isEmpty_iff.mp hemp)), if_pos trivial]

/-- C7 witness: concrete runs with an empty credential fail with the
missing-credential error before any call. -/
theorem C7_credential_gating_witness :
    generate_summary "doc" "output.txt" "" (fun _ q => .ok q) "old" true =
      ⟨[], "old", .error "Gemini API Key is required for summarization."⟩ ∧
    create_quiz_from_text "abc" 1 "easy" "" tBadQ =
      ⟨.error "Gemini API Key is required for quiz generation.", 0⟩ :=
  ⟨C7_credential_gating.1 "doc" "output.txt" (fun _ q => .ok q) "old" true,
   C7_credential_gating.2 "abc" 1 "easy" tBadQ (by decide)⟩

/-- C9: when the final-stage invoker call succeeds (the run returns .ok s),
generate_summary writes s to the output slot, overwriting any previous
content, and returns that same string; the same run with a failing write
raises the persistence error even though the summary was generated. -/
theorem C9_persist_and_return (text outPath key : String)
    (invoke : String → String → Except String String) (slot0 s : String)
    (hok : (generate_summary text outPath key invoke slot0 true).outcome = .ok s) :
    (generate_summary text outPath key invoke slot0 true).slot = s ∧
    (generate_summary text outPath key invoke slot0 false).outcome =
      .error ("Failed to save summary to " ++ outPath) := by
  by_cases hkey : key = ""
  · rw [hkey] at hok
    simp [generate_summary] at hok
  · simp only [generate_summary, if_neg hkey] at hok ⊢
    cases hstage : summaryStage1 text invoke with
    | mk res calls =>
      cases res with
      | error e =>
        rw [hstage] at hok
        simp at hok
      | ok fi =>
        rw [hstage] at hok
        simp at hok ⊢
        cases hinv : invoke final_system_prompt fi with
        | error e =>
          rw [hinv] at hok
          simp at hok
        | ok summary =>
          rw [hinv] at hok
          simp at hok
          simp [hinv, hok]

/-- C9 witness: with a mocked invoker returning a fixed summary, the slot ends
up holding exactly the returned summary, and the write-failure run raises the
persistence error naming the output path. -/
theorem C9_persist_and_return_witness :
    (generate_summary "hi" "output.txt" "K" (fun _ _ => .ok "THE SUMMARY") "old" true).slot =
      "THE SUMMARY" ∧
    (generate_summary "hi" "output.txt" "K" (fun _ _ => .ok "THE SUMMARY") "old" false).outcome =
      .error ("Failed to save summary to " ++ "output.txt") :=
  C9_persist_and_return "hi" "output.txt" "K" (fun _ _ => .ok "THE SUMMARY") "old"
    "THE SUMMARY" rfl
